import Mathlib

/-!
Verification development for the shade repository: a shallow embedding of
the login-detection pipeline (field classifier, correlation state machine,
outcome detector, coordinator transport policy, HIBP breach-check client
and cache), with theorems settling the specification claims.

Source files embedded here:
* extension content script (field classification, debounce, MFA wait,
  outcome monitoring, message dispatch);
* extension background script (coordinator: filters, transport policy,
  hashing, POST body);
* backend hibp package (client, cache, service);
* backend login endpoint (JSON field contract).
-/

namespace Shade

/-! ## String primitives

JavaScript `String.prototype.includes`, `startsWith`, `toLowerCase` and
Go `strings.HasPrefix`, `strings.Contains`, `strings.ToUpper` are modelled
on the character lists underlying Lean strings, so that every definition
reduces under kernel evaluation. -/

/-- Check whether the first list is an initial segment of the second. -/
def isPreL : List Char → List Char → Bool
  | [], _ => true
  | _ :: _, [] => false
  | a :: as, b :: bs => a == b && isPreL as bs

/-- Check whether `needle` occurs as a contiguous sublist of `hay`. -/
def subL (needle : List Char) : List Char → Bool
  | [] => isPreL needle []
  | c :: rest => isPreL needle (c :: rest) || subL needle rest

/-- JavaScript `hay.includes(needle)` / Go `strings.Contains hay needle`. -/
def strIncludes (hay needle : String) : Bool :=
  subL needle.data hay.data

/-- JavaScript `s.startsWith(pre)` / Go `strings.HasPrefix s pre`. -/
def startsW (s pre : String) : Bool :=
  isPreL pre.data s.data

/-- JavaScript `s.toLowerCase()` (ASCII, which covers every literal compared
against in the source). -/
def lowerStr (s : String) : String :=
  String.mk (s.data.map Char.toLower)

/-- Go `strings.ToUpper`. -/
def upperStr (s : String) : String :=
  String.mk (s.data.map Char.toUpper)

/-! ## Field classifier

Embedding of the content script's `isPasswordField`, `isUsernameField`,
`isMFAField` and the classification order used in `findAndMonitorForms`
(password, then username, then MFA, else unclassified). -/

/-- The spec's InputRole. -/
inductive InputRole
  | Password
  | Username
  | MFACode
  | Unclassified
  deriving DecidableEq, Repr

/-- The spec's FieldDescriptor: the immutable attribute snapshot the
classifier reads from an input element.  `maxLength` is an `Int` because
the DOM reports `-1` for an unset `maxlength` attribute. -/
structure FieldDescriptor where
  controlType : String
  name : String
  idAttr : String
  placeholder : String
  className : String
  maxLength : Int
  autocompleteHint : String
  inputModeHint : String
  deriving DecidableEq, Repr

/-- Content script `isPasswordField`: `input.type.toLowerCase() === 'password'`. -/
def isPasswordField (d : FieldDescriptor) : Bool :=
  lowerStr d.controlType == "password"

/-- The username keyword list from the content script. -/
def usernamePatterns : List String :=
  ["user", "username", "email", "login", "account", "id", "identifier"]

/-- Content script `isUsernameField`: email control type, or a username
keyword occurring in the lowercased name, id, or placeholder. -/
def isUsernameField (d : FieldDescriptor) : Bool :=
  lowerStr d.controlType == "email" ||
    usernamePatterns.any (fun p =>
      strIncludes (lowerStr d.name) p || strIncludes (lowerStr d.idAttr) p ||
        strIncludes (lowerStr d.placeholder) p)

/-- The MFA keyword list checked for number/tel controls (the source lists
`mfa` twice; the duplicate is kept). -/
def mfaPatternsNumTel : List String :=
  ["totp", "mfa", "otp", "code", "token", "verification", "verify",
   "authenticator", "auth", "2fa", "twofactor", "security", "sms", "mfa", "multifactor"]

/-- The MFA keyword list checked for text controls: unlike the number/tel
list it does not contain `sms`. -/
def mfaPatternsText : List String :=
  ["totp", "mfa", "otp", "code", "token", "verification", "verify",
   "authenticator", "auth", "2fa", "twofactor", "security", "mfa", "multifactor"]

/-- Keyword occurrence in the lowercased name, id, placeholder, or class
attribute, as tested inside `isMFAField`. -/
def fieldPatternHit (d : FieldDescriptor) (pats : List String) : Bool :=
  pats.any (fun p =>
    strIncludes (lowerStr d.name) p || strIncludes (lowerStr d.idAttr) p ||
      strIncludes (lowerStr d.placeholder) p || strIncludes (lowerStr d.className) p)

/-- Content script `isMFAField`: number/tel controls match on keywords only;
text controls match on keywords (list without `sms`) or on one of the
structural signals `maxLength ∈ [4,8]`, `autocomplete == 'one-time-code'`,
`inputMode == 'numeric'`.  Whenever it returns true the source fixes
`detectedMFAType` to `"TOTP"`. -/
def isMFAField (d : FieldDescriptor) : Bool :=
  let ty := lowerStr d.controlType
  if (ty == "number" || ty == "tel") && fieldPatternHit d mfaPatternsNumTel then
    true
  else if ty == "text" &&
      (fieldPatternHit d mfaPatternsText ||
        (decide (4 ≤ d.maxLength) && decide (d.maxLength ≤ 8)) ||
        lowerStr d.autocompleteHint == "one-time-code" ||
        lowerStr d.inputModeHint == "numeric") then
    true
  else
    false

/-- The MFA category recorded by the source whenever `isMFAField` matches. -/
def detectedMFACategory : String := "TOTP"

/-- The classification order of `findAndMonitorForms`: password first, then
username, then MFA, else unclassified. -/
def classify (d : FieldDescriptor) : InputRole :=
  if isPasswordField d then .Password
  else if isUsernameField d then .Username
  else if isMFAField d then .MFACode
  else .Unclassified

/-- Claim-side definition, following the words of C7: the single MFA keyword
set (including `sms`) said to apply to all numeric/telephone/text controls. -/
def claimMFAKeywords : List String :=
  ["totp", "mfa", "otp", "code", "token", "verification", "verify",
   "authenticator", "auth", "2fa", "twofactor", "security", "sms", "multifactor"]

/-- Claim-side definition, following the words of C7: keyword hit on
name/id/placeholder/className. -/
def claimKeywordHit (d : FieldDescriptor) : Bool :=
  claimMFAKeywords.any (fun p =>
    strIncludes (lowerStr d.name) p || strIncludes (lowerStr d.idAttr) p ||
      strIncludes (lowerStr d.placeholder) p || strIncludes (lowerStr d.className) p)

/-- Claim-side definition, following the words of C7: the structural signal
`(maxLength in [4,8], autocompleteHint == "one-time-code", inputModeHint ==
"numeric")`, read disjunctively as in the source's text branch. -/
def claimStructuralSignal (d : FieldDescriptor) : Bool :=
  (decide (4 ≤ d.maxLength) && decide (d.maxLength ≤ 8)) ||
    lowerStr d.autocompleteHint == "one-time-code" ||
    lowerStr d.inputModeHint == "numeric"

/-- Claim-side definition, following the words of C7: a numeric, telephone
or text control with a keyword hit or the structural signal is said to
classify as MFACode. -/
def claimSaysMFACode (d : FieldDescriptor) : Bool :=
  (lowerStr d.controlType == "number" || lowerStr d.controlType == "tel" ||
      lowerStr d.controlType == "text") &&
    (claimKeywordHit d || claimStructuralSignal d)

/-! ## Correlation state machine

Embedding of the content script's debounce/MFA-wait logic.  The mutable
variables `lastSentLogin`, `pendingLoginData` and `hasMFADetected` are
page-global: one page context holds a single `lastSentLogin` record and a
single `pendingLoginData` attempt, shared across every (domain, username)
pair observed in that page, and the debounce check compares the incoming
pair against whatever pair that one shared record currently holds.
Timestamps are milliseconds.  Each event that starts a
`monitorLoginResult` invocation carries a Boolean oracle `e` telling
whether that invocation's outcome check eventually emits a `LOGIN_DETECTED`
message (the monitor itself never writes this state, so folding its
outcome into the invocation event preserves all interleavings); the step
reports the (domain, username) pair of an emitting invocation so that
emissions can be counted per pair. -/

/-- The debounce window `DEBOUNCE_TIME` (ms). -/
def DEBOUNCE_TIME : Nat := 1000

/-- The MFA wait `MFA_WAIT_TIME` (ms). -/
def MFA_WAIT_TIME : Nat := 8000

/-- The single shared `lastSentLogin` record: the pair and timestamp of the
last attempt that reached a monitor, whichever pair that was. -/
structure DebRecord where
  domain : String
  username : String
  timestamp : Nat
  deriving DecidableEq, Repr

/-- The single shared `pendingLoginData` attempt (with a live MFA-wait
timer), whichever pair created it. -/
structure PendingAttempt where
  domain : String
  username : String
  password : String
  timestamp : Nat
  deriving DecidableEq, Repr

/-- Correlation state for one page context: the one shared `lastSentLogin`
record, the one shared `pendingLoginData` attempt, and the flag
`hasMFADetected`. -/
structure CState where
  lastSent : Option DebRecord
  pending : Option PendingAttempt
  hasMFA : Bool
  deriving DecidableEq, Repr

/-- The state at page load. -/
def initCState : CState := ⟨none, none, false⟩

/-- Events of the correlation machine:
* `trigger d u pw t e`: `sendLoginData` runs at time `t` with captured
  credentials (u, pw) on domain d (a submit or click trigger, of any pair);
* `scanMFA e`: a `findAndMonitorForms` scan classifies a new, previously
  unmonitored MFA field (the Observer fast path);
* `scanNoMFA`: a scan finds no new MFA field (it resets `hasMFADetected`);
* `timerFire e`: the `MFA_WAIT_TIME` timeout of the live pending attempt
  fires (cancelled timers never fire, so the event is a no-op when no
  pending attempt exists).
`e` is the outcome oracle of the started monitor invocation. -/
inductive CEvent
  | trigger (d u pw : String) (t : Nat) (e : Bool)
  | scanMFA (e : Bool)
  | scanNoMFA
  | timerFire (e : Bool)
  deriving DecidableEq, Repr

/-- Whether an event is a submit/click trigger. -/
def CEvent.isTrig : CEvent → Bool
  | .trigger _ _ _ _ _ => true
  | _ => false

/-- One step of the machine, returning the next state and, when the event
starts a `monitorLoginResult` invocation whose oracle says it emits, the
(domain, username) pair of the emitted VerifiedEvent.

`trigger`: `sendLoginData` returns early when the shared `lastSentLogin`
record holds the same domain and username and is younger than
`DEBOUNCE_TIME` (Nat subtraction agrees with the source because a clock
that went backwards also debounces); a record for a different pair never
debounces and is simply overwritten downstream.  Otherwise, with
`hasMFADetected` set it starts `monitorLoginResult` and writes
`lastSentLogin` at once; with it clear it cancels whatever pending attempt
exists — for any pair — and installs its own, with the timer due at
`t + MFA_WAIT_TIME`.

`scanMFA`: the scan sets `hasMFADetected`; if a pending attempt exists the
fast path clears its timer, starts `monitorLoginResult` for the attempt's
pair, writes `lastSentLogin` with the attempt's pair and timestamp and
drops the attempt.

`scanNoMFA`: the scan resets `hasMFADetected` (and finds no new MFA field,
since already-monitored elements are skipped).

`timerFire`: the timeout callback starts `monitorLoginResult` for the
pending attempt's pair, writes `lastSentLogin` with the pair and
trigger-time timestamp captured in its closure, and drops the attempt. -/
def cStep (s : CState) : CEvent → CState × Option (String × String)
  | .trigger d u pw t e =>
    match s.lastSent with
    | some r =>
      if r.domain == d && r.username == u && decide (t - r.timestamp < DEBOUNCE_TIME) then
        (s, none)
      else if s.hasMFA then
        ({ s with lastSent := some ⟨d, u, t⟩ }, if e then some (d, u) else none)
      else ({ s with pending := some ⟨d, u, pw, t⟩ }, none)
    | none =>
      if s.hasMFA then
        ({ s with lastSent := some ⟨d, u, t⟩ }, if e then some (d, u) else none)
      else ({ s with pending := some ⟨d, u, pw, t⟩ }, none)
  | .scanMFA e =>
    match s.pending with
    | some p =>
      (⟨some ⟨p.domain, p.username, p.timestamp⟩, none, true⟩,
        if e then some (p.domain, p.username) else none)
    | none => ({ s with hasMFA := true }, none)
  | .scanNoMFA => ({ s with hasMFA := false }, none)
  | .timerFire e =>
    match s.pending with
    | some p =>
      ({ s with lastSent := some ⟨p.domain, p.username, p.timestamp⟩, pending := none },
        if e then some (p.domain, p.username) else none)
    | none => (s, none)

/-- Run a trace of events. -/
def cRun (s : CState) : List CEvent → CState
  | [] => s
  | ev :: evs => cRun (cStep s ev).1 evs

/-- Count 1 when an emission report names the pair (d, u). -/
def pairHit (d u : String) : Option (String × String) → Nat
  | some p => if p.1 == d && p.2 == u then 1 else 0
  | none => 0

/-- Count the VerifiedEvents emitted for the pair (d, u) over a trace. -/
def cCount (d u : String) (s : CState) : List CEvent → Nat
  | [] => 0
  | ev :: evs => pairHit d u (cStep s ev).2 + cCount d u (cStep s ev).1 evs

/-- A trace with no submit/click triggers. -/
def trigFree (l : List CEvent) : Bool :=
  l.all (fun ev => !ev.isTrig)

/-! ## Outcome detector

Embedding of `isLoginFailure`, `isLoginSuccess` and the poll loop of
`monitorLoginResult`.  A `Page` is a snapshot of the document state a poll
tick reads: generic elements (class attribute, its token list, id
attribute, text content), the password/email/text inputs, the anchor
`href` values, the button `onclick` values, and the current location. -/

/-- A document element as read by the selector checks.  `classTokens` is
the space-separated token list of the `className` attribute (the DOM's
`classList` view of the same attribute). -/
structure PageEl where
  className : String
  classTokens : List String
  idAttr : String
  text : String
  deriving DecidableEq, Repr

/-- A password/email/text input as read by the invalid-styling check. -/
structure PageInput where
  typ : String
  classTokens : List String
  ariaInvalid : String
  deriving DecidableEq, Repr

/-- A page snapshot at one poll tick. -/
structure Page where
  els : List PageEl
  inputs : List PageInput
  anchorHrefs : List String
  buttonClicks : List String
  url : String
  deriving DecidableEq, Repr

/-- The failure phrases of `isLoginFailure`. -/
def errorPhrases : List String :=
  ["invalid", "incorrect", "wrong", "failed", "error", "denied",
   "unauthorized", "authentication failed", "login failed",
   "bad credentials", "invalid username", "invalid password",
   "account locked", "too many attempts"]

/-- Whether an element matches one of the error selectors
`[class*="error"]`, `[class*="invalid"]`, `[class*="fail"]`, the same three
on `id`, or one of the classes `alert-danger`, `alert-error`,
`error-message`, `login-error`, `auth-error`. -/
def elMatchesError (el : PageEl) : Bool :=
  strIncludes el.className "error" || strIncludes el.className "invalid" ||
    strIncludes el.className "fail" || strIncludes el.idAttr "error" ||
    strIncludes el.idAttr "invalid" || strIncludes el.idAttr "fail" ||
    el.classTokens.contains "alert-danger" || el.classTokens.contains "alert-error" ||
    el.classTokens.contains "error-message" || el.classTokens.contains "login-error" ||
    el.classTokens.contains "auth-error"

/-- Content script `isLoginFailure`: an error-marked element whose
lowercased text contains a failure phrase, or a password/email/text input
carrying the `error`, `invalid` or `is-invalid` class or
`aria-invalid="true"`. -/
def isLoginFailure (p : Page) : Bool :=
  p.els.any (fun el =>
      elMatchesError el &&
        errorPhrases.any (fun ph => strIncludes (lowerStr el.text) ph)) ||
    p.inputs.any (fun inp =>
      (inp.typ == "password" || inp.typ == "email" || inp.typ == "text") &&
        (inp.classTokens.contains "error" || inp.classTokens.contains "invalid" ||
          inp.classTokens.contains "is-invalid" || inp.ariaInvalid == "true"))

/-- Whether an element matches one of the success selectors
(welcome/dashboard/success on class or id, or the classes `alert-success`,
`success-message`, `login-success`). -/
def elMatchesSuccess (el : PageEl) : Bool :=
  strIncludes el.className "welcome" || strIncludes el.className "dashboard" ||
    strIncludes el.className "success" || strIncludes el.idAttr "welcome" ||
    strIncludes el.idAttr "dashboard" || strIncludes el.idAttr "success" ||
    el.classTokens.contains "alert-success" || el.classTokens.contains "success-message" ||
    el.classTokens.contains "login-success"

/-- Content script `isLoginSuccess`: a success-marker element, or a
logged-in indicator (an anchor whose href contains `logout`, a button
whose onclick contains `logout`, or a user/profile/account menu element). -/
def isLoginSuccess (p : Page) : Bool :=
  p.els.any elMatchesSuccess ||
    p.anchorHrefs.any (fun h => strIncludes h "logout") ||
    p.buttonClicks.any (fun h => strIncludes h "logout") ||
    p.els.any (fun el =>
      strIncludes el.className "user-menu" || strIncludes el.className "profile-menu" ||
        strIncludes el.className "account-menu")

/-- The poll ceiling `LOGIN_SUCCESS_WAIT_TIME` (ms). -/
def LOGIN_SUCCESS_WAIT_TIME : Nat := 5000

/-- The outcome of one `monitorLoginResult` invocation. -/
inductive Outcome
  | discard
  | emit
  deriving DecidableEq, Repr

/-- The `checkResult` poll loop.  `pages k` is the page snapshot the poll
callback number `k` reads; the callback runs at elapsed `1000 + 500 * k`
milliseconds.  Failure discards; success or a location change emits;
otherwise the loop re-arms while the elapsed time is below the ceiling and
emits optimistically at the ceiling.  The structural `fuel` argument only
bounds the recursion; from `fuel = 9` the elapsed-time test always exits
first (polls stop re-arming at `k = 8`), and an exhausted-fuel fallback
returns the same optimistic `emit` as the ceiling. -/
def checkResultAux (initialUrl : String) (pages : Nat → Page) : Nat → Nat → Outcome
  | 0, _ => .emit
  | fuel + 1, k =>
    if isLoginFailure (pages k) then .discard
    else if isLoginSuccess (pages k) || (pages k).url != initialUrl then .emit
    else if 1000 + 500 * k < LOGIN_SUCCESS_WAIT_TIME then
      checkResultAux initialUrl pages fuel (k + 1)
    else .emit

/-- `monitorLoginResult`'s overall outcome: the first poll runs after the
initial 1000 ms delay. -/
def monitorOutcome (initialUrl : String) (pages : Nat → Page) : Outcome :=
  checkResultAux initialUrl pages 9 0

/-- Every call site that starts `monitorLoginResult` (the MFA-confirmed
trigger path, the fast-path cancellation, and the MFA-wait timeout) writes
the shared `lastSentLogin` record with the attempt's (domain, username)
pair and trigger timestamp `t` immediately, in the same turn, before any
poll runs.  This is that common pattern: the new correlation state and the
invocation's eventual outcome. -/
def monitorAndRecord (s : CState) (d u : String) (t : Nat) (initialUrl : String)
    (pages : Nat → Page) : CState × Outcome :=
  ({ s with lastSent := some ⟨d, u, t⟩ }, monitorOutcome initialUrl pages)

/-! ## Agent message and Coordinator

Embedding of `sendLoginDataImmediate` (the LOGIN_DETECTED message the
content script sends) and of the background script's
`handleLoginDetected` (username filters, transport policy, hashing, POST
body).  The SHA-512 digest itself is a platform primitive
(`crypto.subtle.digest`), so the coordinator is parameterised over the
hex-digest function; its hex encoding is embedded below for C10. -/

/-- The extension's internal message types. -/
inductive MessageType
  | LOGIN_DETECTED
  | GET_DEVICE_ID
  deriving DecidableEq, Repr

/-- The LOGIN_DETECTED message built by `sendLoginDataImmediate`: its data
object carries the domain, the username, the raw password, and the MFA
flags.  No hashing happens in the content script. -/
structure DetectedMsg where
  typ : MessageType
  domain : String
  username : String
  password : String
  hasMFA : Bool
  mfaType : Option String
  deriving DecidableEq, Repr

/-- Content script `sendLoginDataImmediate`: packages the captured values
into the message sent to the background script (and then clears
`formData`). -/
def sendLoginDataImmediate (domain username password : String) (hasMFA : Bool)
    (mfaType : Option String) : DetectedMsg :=
  ⟨.LOGIN_DETECTED, domain, username, password, hasMFA, mfaType⟩

/-- The string-valued fields of the message's data object. -/
def msgStringFields (m : DetectedMsg) : List String :=
  [m.domain, m.username, m.password]

/-- The background script's transport-policy refusal (the source comment
reads: only send the credentials when it's either localhost or a secure
remote endpoint): refuse unless the endpoint starts with `https://` or
contains the substring `localhost`. -/
def coordRefusesEndpoint (apiUrl : String) : Bool :=
  !startsW apiUrl "https://" && !strIncludes apiUrl "localhost"

/-- Background script `handleLoginDetected`.  Inputs are the partial login
data from the message (absent fields default to the empty string), the
configured endpoint, device id and filters, and the ISO capture time taken
at handling.  Returns the JSON body of the `POST /api/login/register`
request as an ordered key/value list, or `none` when the event is dropped
(failing username filter, or refused transport).  `sha512hex` is the
platform digest. -/
def handleLoginDetected (sha512hex : String → String)
    (pDomain pUsername pPassword : Option String)
    (apiUrl deviceId nowIso : String) (filters : List String) :
    Option (List (String × String)) :=
  let domain := pDomain.getD ""
  let username := pUsername.getD ""
  let password := pPassword.getD ""
  if !filters.isEmpty && !filters.any (fun f => strIncludes username f) then
    none
  else if coordRefusesEndpoint apiUrl then
    none
  else
    some [("domain", domain), ("username", username),
          ("hash", sha512hex password), ("device_id", deviceId),
          ("captured_time", nowIso)]

/-- Modelled from the spec: `sendToBackend` (its source is not under
`src/`; only its call sites are) serialises the body it is given unchanged
and attaches an `Authorization: Bearer <token>` header exactly when a
token is configured.  It adds no body fields. -/
def sendToBackendHeaders (token : String) : List (String × String) :=
  if token ≠ "" then [("Authorization", "Bearer " ++ token)] else []

/-- The JSON keys of the backend's `loginData` struct in
`pkg/service/login/endpoints.go`. -/
def backendLoginDataKeys : List String :=
  ["domain", "username", "hash", "device_id", "captured_time", "hasMFA", "mfaType"]

/-- Claim-side definition, following the words of C2: the host component of
an endpoint URL (the text after `://`, up to the first `/`, `:`, `?` or
`#`). -/
def afterSchemeMark : List Char → Option (List Char)
  | ':' :: '/' :: '/' :: rest => some rest
  | _ :: rest => afterSchemeMark rest
  | [] => none

/-- Claim-side definition, following the words of C2: host extraction. -/
def hostOf (url : String) : String :=
  let body := (afterSchemeMark url.data).getD url.data
  String.mk (body.takeWhile (fun c => c != '/' && c != ':' && c != '?' && c != '#'))

/-- Claim-side definition, following the words of C2: an endpoint is
acceptable when it is loopback/localhost or uses the encrypted `https`
scheme. -/
def specEndpointAllowed (url : String) : Bool :=
  startsW url "https://" ||
    hostOf url == "localhost" || hostOf url == "127.0.0.1" || hostOf url == "::1"

/-! ## Breach-check client, cache and service

Embedding of the Go `hibp` package: `Cache.Get`/`Cache.Set` with the
1-hour TTL, `Client.CheckPasswordHash` with its length guard and
`SUFFIX:COUNT` response scan, and `Service.CheckPasswordHash` which
consults the cache before the client and caches successful results.
Times are milliseconds; the network is an oracle from a 5-character hash
prefix to either the response body or a transport/status error.  Network
call counts are returned explicitly. -/

/-- A cache entry: `BreachCount` and the `Timestamp` it was stored at. -/
structure CacheEntry where
  breachCount : Int
  timestamp : Nat
  deriving DecidableEq, Repr

/-- The cache's 1-hour TTL (`time.Hour`), in milliseconds. -/
def cacheTTL : Nat := 3600000

/-- `Cache.Get`: a present entry is returned while `now - cachedAt` does
not exceed the TTL, otherwise it reads as a miss.  (Nat subtraction agrees
with Go's signed duration here: a negative age is also not above the
TTL.) -/
def cacheGet (entries : String → Option CacheEntry) (now : Nat)
    (passwordHash : String) : Int × Bool :=
  match entries passwordHash with
  | none => (0, false)
  | some e => if now - e.timestamp > cacheTTL then (0, false) else (e.breachCount, true)

/-- `Cache.Set`: store the count at the current time. -/
def cacheSet (entries : String → Option CacheEntry) (now : Nat)
    (passwordHash : String) (breachCount : Int) : String → Option CacheEntry :=
  fun k => if k == passwordHash then some ⟨breachCount, now⟩ else entries k

/-- Character-list split on a separator character (Go `strings.Split`). -/
def splitCh (c : Char) : List Char → List (List Char)
  | [] => [[]]
  | a :: as =>
    match splitCh c as with
    | [] => [[]]
    | g :: gs => if a == c then [] :: g :: gs else (a :: g) :: gs

/-- Go `strings.TrimSpace` on a character list (ASCII whitespace, which
covers the `\r` and spaces occurring in range responses). -/
def isWSChar (c : Char) : Bool :=
  c == ' ' || c == '\t' || c == '\r' || c == '\n'

/-- Trim leading and trailing whitespace. -/
def trimChars (l : List Char) : List Char :=
  ((l.dropWhile isWSChar).reverse.dropWhile isWSChar).reverse

/-- Case-insensitive equality of character lists (Go `strings.EqualFold`,
ASCII folding, which covers hex digits). -/
def foldEq (a b : List Char) : Bool :=
  a.map Char.toLower == b.map Char.toLower

/-- Digit-string to number, or `none` on a non-digit. -/
def digitsToNat : List Char → Option Nat
  | [] => none
  | ds =>
    ds.foldl (fun acc c =>
      match acc with
      | none => none
      | some n => if c.isDigit then some (n * 10 + (c.toNat - '0'.toNat)) else none)
      (some 0)

/-- Go `strconv.Atoi`, restricted to optionally signed decimal digits (the
only shapes a `SUFFIX:COUNT` record can carry). -/
def atoiQ (s : String) : Option Int :=
  match s.data with
  | '-' :: ds => (digitsToNat ds).map (fun n => -(n : Int))
  | ds => (digitsToNat ds).map (fun n => (n : Int))

/-- The response-body scan shared by both `CheckPassword` variants: walk
the lines, trim, skip blanks, skip lines without exactly one `:`, and on a
case-insensitive suffix match parse the count (a parse failure is an
error).  A suffix that never matches reads as a count of 0. -/
def scanRangeLines (sfx : List Char) : List (List Char) → Except String Int
  | [] => .ok 0
  | ln :: rest =>
    let l := trimChars ln
    if l.isEmpty then scanRangeLines sfx rest
    else
      match splitCh ':' l with
      | [p, cnt] =>
        if foldEq p sfx then
          match atoiQ (String.mk cnt) with
          | some n => .ok n
          | none => .error "failed to parse breach count"
        else scanRangeLines sfx rest
      | _ => scanRangeLines sfx rest

/-- Go `Client.CheckPasswordHash`: reject any input whose length is not 40
before touching the network; otherwise uppercase it, send the 5-character
prefix as a range query and scan the response for the 35-character suffix.
The second component counts network requests performed. -/
def clientCheckPasswordHash (network : String → Except String String)
    (hashStr : String) : Except String Int × Nat :=
  if hashStr.length ≠ 40 then
    (.error "invalid hash length: expected 40 characters", 0)
  else
    let up := upperStr hashStr
    let pfx := String.mk (up.data.take 5)
    let sfx := up.data.drop 5
    match network pfx with
    | .error e => (.error ("failed to make request to HIBP: " ++ e), 1)
    | .ok body => (scanRangeLines sfx (splitCh '\n' body.data), 1)

/-- Go `Service.CheckPasswordHash`: cache hit returns at once with no
network call; a miss asks the client and caches only successful results.
Returns the result, the cache after the call, and the network calls
made. -/
def serviceCheckPasswordHash (network : String → Except String String)
    (cache : String → Option CacheEntry) (now : Nat) (passwordHash : String) :
    Except String Int × (String → Option CacheEntry) × Nat :=
  match cacheGet cache now passwordHash with
  | (c, true) => (.ok c, cache, 0)
  | (_, false) =>
    match clientCheckPasswordHash network passwordHash with
    | (.error e, n) => (.error e, cache, n)
    | (.ok cnt, n) => (.ok cnt, cacheSet cache now passwordHash cnt, n)

/-! ## SHA-512 hex encoding

The background script's `sha512` maps the 64-byte digest from
`crypto.subtle.digest('SHA-512', …)` through
`hashArray.map(b => b.toString(16).padStart(2, '0')).join('')`.  The
digest computation is a platform primitive; its hex encoding is embedded
here. -/

/-- JavaScript `s.padStart(2, '0')`. -/
def padStart2 (s : String) : String :=
  String.mk (List.replicate (2 - s.length) '0' ++ s.data)

/-- JavaScript `b.toString(16).padStart(2, '0')` for a byte value. -/
def byteHex (b : Nat) : String :=
  padStart2 (String.mk (Nat.toDigits 16 b))

/-- The `map`/`join('')` over the digest bytes. -/
def hexOfBytes : List Nat → String
  | [] => ""
  | b :: bs => byteHex b ++ hexOfBytes bs

/-! ## Helper lemmas -/

/-- A two-level Boolean if-chain returning true/true/false is a disjunction. -/
theorem ite_ite_or (a b : Bool) : (if a then true else if b then true else false) = (a || b) := by
  cases a <;> cases b <;> rfl

/-- `isMFAField` written as the disjunction of its number/tel branch and its
text branch. -/
theorem isMFAField_eq (d : FieldDescriptor) :
    isMFAField d =
      (((lowerStr d.controlType == "number" || lowerStr d.controlType == "tel") &&
          fieldPatternHit d mfaPatternsNumTel) ||
        (lowerStr d.controlType == "text" &&
          (fieldPatternHit d mfaPatternsText ||
            (decide (4 ≤ d.maxLength) && decide (d.maxLength ≤ 8)) ||
            lowerStr d.autocompleteHint == "one-time-code" ||
            lowerStr d.inputModeHint == "numeric"))) := by
  unfold isMFAField
  exact ite_ite_or _ _

/-- Every byte renders as exactly two hex characters. -/
theorem byteHex_length : ∀ b : Nat, b < 256 → (byteHex b).length = 2 := by
  set_option maxRecDepth 4096 in decide

/-- The hex rendering of a byte list has twice its length. -/
theorem hexOfBytes_length : ∀ bs : List Nat, (∀ b ∈ bs, b < 256) →
    (hexOfBytes bs).length = 2 * bs.length := by
  intro bs
  induction bs with
  | nil => intro _; rfl
  | cons b t ih =>
    intro hb
    have h2 : (byteHex b).length = 2 := byteHex_length b (hb b (List.mem_cons_self b t))
    simp [hexOfBytes, String.length_append, h2,
      ih (fun x hx => hb x (List.mem_cons_of_mem _ hx))]
    ring

/-! ## Claim theorems -/

/-- C6: every FieldDescriptor whose controlType is `password` classifies as
Password — never Username or MFACode — whatever its name, id, placeholder,
className, maxLength, autocomplete, or inputMode, because the password test
runs first in the classification chain. -/
theorem c6_password_always_password (d : FieldDescriptor)
    (h : d.controlType = "password") : classify d = .Password := by
  have hp : isPasswordField d = true := by
    simp only [isPasswordField, h]
    decide
  simp [classify, hp]

/-- C6 witness: a password control dressed in every MFA and username signal
still classifies as Password. -/
theorem c6_password_always_password_witness :
    classify ⟨"password", "totp_user_email", "otp", "code", "mfa", 6,
      "one-time-code", "numeric"⟩ = .Password :=
  c6_password_always_password _ rfl

/-- C7 counterexample: the claim's rule (numeric/telephone/text control with
an MFA keyword hit or the structural signal classifies as MFACode) fails on
the code.  A `number` control named `x` with maxLength 6, autocomplete
`one-time-code` and inputMode `numeric` carries the full structural signal,
yet the source only consults structural signals for `text` controls, so it
classifies as Unclassified.  A `text` control named `sms` (no structural
signal, DOM maxLength -1) also contradicts the claim: `sms` is missing from
the source's text keyword list. -/
theorem c7_counterexample :
    claimSaysMFACode ⟨"number", "x", "", "", "", 6, "one-time-code", "numeric"⟩ = true ∧
    isPasswordField ⟨"number", "x", "", "", "", 6, "one-time-code", "numeric"⟩ = false ∧
    isUsernameField ⟨"number", "x", "", "", "", 6, "one-time-code", "numeric"⟩ = false ∧
    classify ⟨"number", "x", "", "", "", 6, "one-time-code", "numeric"⟩ = .Unclassified ∧
    claimSaysMFACode ⟨"text", "sms", "", "", "", -1, "", ""⟩ = true ∧
    isPasswordField ⟨"text", "sms", "", "", "", -1, "", ""⟩ = false ∧
    isUsernameField ⟨"text", "sms", "", "", "", -1, "", ""⟩ = false ∧
    classify ⟨"text", "sms", "", "", "", -1, "", ""⟩ = .Unclassified := by
  decide

/-- C7 amended: for a field classified neither Password nor Username,
classification returns MFACode exactly when either (a) the control type is
number or tel and an MFA keyword from the number/tel list (which includes
`sms`) occurs in name/id/placeholder/className, or (b) the control type is
text and an MFA keyword from the text list (which omits `sms`) occurs
there, or one of the structural signals holds (maxLength in [4,8],
autocomplete `one-time-code`, inputMode `numeric`); otherwise the field is
Unclassified.  The category is fixed to `TOTP` whenever MFACode is
returned. -/
theorem c7_amended (d : FieldDescriptor)
    (hp : isPasswordField d = false) (hu : isUsernameField d = false) :
    (classify d = .MFACode ↔
      (((lowerStr d.controlType == "number" || lowerStr d.controlType == "tel") &&
          fieldPatternHit d mfaPatternsNumTel) = true ∨
        (lowerStr d.controlType == "text" &&
          (fieldPatternHit d mfaPatternsText ||
            (decide (4 ≤ d.maxLength) && decide (d.maxLength ≤ 8)) ||
            lowerStr d.autocompleteHint == "one-time-code" ||
            lowerStr d.inputModeHint == "numeric")) = true)) ∧
    (classify d = .MFACode ∨ classify d = .Unclassified) ∧
    detectedMFACategory = "TOTP" := by
  have hcl : classify d = .MFACode ↔ isMFAField d = true := by
    cases hm : isMFAField d <;> simp [classify, hp, hu, hm]
  refine ⟨?_, ?_, rfl⟩
  · rw [hcl, isMFAField_eq]
    exact iff_of_eq (Bool.or_eq_true _ _)
  · cases hm : isMFAField d <;> simp [classify, hp, hu, hm]

/-- C7 amended witness: a tel control named `sms_code` classifies as
MFACode under the amended rule. -/
theorem c7_amended_witness :
    isPasswordField ⟨"tel", "sms_code", "", "", "", -1, "", ""⟩ = false ∧
    classify ⟨"tel", "sms_code", "", "", "", -1, "", ""⟩ = .MFACode :=
  ⟨by decide,
    ((c7_amended ⟨"tel", "sms_code", "", "", "", -1, "", ""⟩ (by decide) (by decide)).1.mpr
      (Or.inl (by decide)))⟩

/-- C4: whenever a failure signal (an error-marked element whose text
contains a failure phrase, or an input explicitly flagged invalid) is
present at the first poll, the outcome-detector invocation discards the
attempt: no VerifiedEvent is emitted at any later poll nor at the timeout
ceiling, because the first callback returns without re-arming the loop. -/
theorem c4_failure_at_first_poll_discards (initialUrl : String) (pages : Nat → Page)
    (h : isLoginFailure (pages 0) = true) :
    monitorOutcome initialUrl pages = .discard := by
  simp [monitorOutcome, checkResultAux, h]

/-- C4 witness: a page showing an `Invalid credentials` banner in a
`login-error` element at every poll is discarded. -/
theorem c4_failure_at_first_poll_discards_witness :
    isLoginFailure ⟨[⟨"login-error", ["login-error"], "", "Invalid credentials"⟩],
        [], [], [], "https://x/login"⟩ = true ∧
    monitorOutcome "https://x/login"
        (fun _ => ⟨[⟨"login-error", ["login-error"], "", "Invalid credentials"⟩],
          [], [], [], "https://x/login"⟩) = .discard :=
  ⟨by decide, c4_failure_at_first_poll_discards "https://x/login" _ (by decide)⟩

/-- C8 counterexample: the claim places the DebounceRecord write at
emission time, on the emit path only; in the source every call site writes
`lastSentLogin` when the monitor is started, before the outcome is known.
Concretely, an invocation whose first poll sees a failure banner discards
the attempt, yet the DebounceRecord for the pair is written. -/
theorem c8_counterexample :
    (monitorAndRecord initCState "x.example" "alice" 0 "https://x/login"
        (fun _ => ⟨[⟨"auth-error", ["auth-error"], "", "Login failed"⟩],
          [], [], [], "https://x/login"⟩)).2 = .discard ∧
    (monitorAndRecord initCState "x.example" "alice" 0 "https://x/login"
        (fun _ => ⟨[⟨"auth-error", ["auth-error"], "", "Login failed"⟩],
          [], [], [], "https://x/login"⟩)).1.lastSent = some ⟨"x.example", "alice", 0⟩ := by
  decide

/-- C8 amended: every outcome-detector invocation resolves to exactly one
of discard and emit, and the DebounceRecord is written with the attempt's
(domain, username) pair and trigger timestamp when monitoring begins — on
the emit path and on the discard path alike. -/
theorem c8_amended (s : CState) (d u : String) (t : Nat) (initialUrl : String)
    (pages : Nat → Page) :
    ((monitorAndRecord s d u t initialUrl pages).2 = .discard ↔
      ¬(monitorAndRecord s d u t initialUrl pages).2 = .emit) ∧
    (monitorAndRecord s d u t initialUrl pages).1.lastSent = some ⟨d, u, t⟩ := by
  constructor
  · cases h : (monitorAndRecord s d u t initialUrl pages).2 <;> simp [h]
  · rfl

/-- C1 counterexample: the LOGIN_DETECTED message dispatched by the page
agent is not a hash-bearing VerifiedEvent — its data carries the raw
captured password.  At a concrete dispatch the message's password field
equals the raw password, so the claim that none of its fields equals the
raw captured password is false. -/
theorem c1_counterexample :
    (sendLoginDataImmediate "example.com" "alice" "hunter2" true (some "TOTP")).password =
      "hunter2" ∧
    "hunter2" ∈ msgStringFields
      (sendLoginDataImmediate "example.com" "alice" "hunter2" true (some "TOTP")) ∧
    (sendLoginDataImmediate "example.com" "alice" "hunter2" true (some "TOTP")).typ =
      .LOGIN_DETECTED := by
  decide

/-- C1 amended: the LOGIN_DETECTED message from the page agent to the
Coordinator carries the raw captured password in its data; hashing happens
in the Coordinator, whose POST body to the backend has exactly the fields
domain, username, hash, device_id, captured_time, where hash is the
digest of the password — the body has no password field. -/
theorem c1_amended (sha512hex : String → String) (domain username password : String)
    (hasMFA : Bool) (mfaType : Option String)
    (apiUrl deviceId nowIso : String) (filters : List String)
    (body : List (String × String))
    (hsend : handleLoginDetected sha512hex (some domain) (some username) (some password)
      apiUrl deviceId nowIso filters = some body) :
    (sendLoginDataImmediate domain username password hasMFA mfaType).password = password ∧
    body.map Prod.fst = ["domain", "username", "hash", "device_id", "captured_time"] ∧
    ("hash", sha512hex password) ∈ body ∧
    (body.map Prod.fst).contains "password" = false := by
  have hbody : body = [("domain", domain), ("username", username),
      ("hash", sha512hex password), ("device_id", deviceId), ("captured_time", nowIso)] := by
    unfold handleLoginDetected at hsend
    split at hsend
    · simp at hsend
    · simp only [Option.getD_some] at hsend
      split at hsend
      · simp at hsend
      · exact (Option.some.inj hsend).symm
  subst hbody
  exact ⟨rfl, rfl, by simp, rfl⟩

/-- C1 amended witness: a concrete dispatch through the Coordinator with a
secure endpoint and no filters. -/
theorem c1_amended_witness :
    handleLoginDetected (fun s => s) (some "example.com") (some "alice") (some "hunter2")
        "https://collector.example" "dev1" "t0" [] =
      some [("domain", "example.com"), ("username", "alice"), ("hash", "hunter2"),
        ("device_id", "dev1"), ("captured_time", "t0")] ∧
    ((sendLoginDataImmediate "example.com" "alice" "hunter2" false none).password = "hunter2" ∧
      [("domain", "example.com"), ("username", "alice"), ("hash", "hunter2"),
        ("device_id", "dev1"), ("captured_time", "t0")].map Prod.fst =
        ["domain", "username", "hash", "device_id", "captured_time"] ∧
      ("hash", "hunter2") ∈ [("domain", "example.com"), ("username", "alice"),
        ("hash", "hunter2"), ("device_id", "dev1"), ("captured_time", "t0")] ∧
      ([("domain", "example.com"), ("username", "alice"), ("hash", "hunter2"),
        ("device_id", "dev1"), ("captured_time", "t0")].map Prod.fst).contains "password" =
        false) :=
  ⟨by decide,
    c1_amended (fun s => s) "example.com" "alice" "hunter2" false none
      "https://collector.example" "dev1" "t0" [] _ (by decide)⟩

/-- C2 counterexample: the claim refuses every endpoint that is neither
loopback/localhost nor https.  The endpoint
`http://localhost.attacker.example` has host `localhost.attacker.example`
— not loopback/localhost — and an unencrypted scheme, yet the source's
substring test `apiUrl.includes("localhost")` lets the send proceed. -/
theorem c2_counterexample :
    specEndpointAllowed "http://localhost.attacker.example" = false ∧
    hostOf "http://localhost.attacker.example" = "localhost.attacker.example" ∧
    (handleLoginDetected (fun s => s) (some "example.com") (some "alice") (some "hunter2")
      "http://localhost.attacker.example" "dev1" "t0" []).isSome = true := by
  decide

/-- C2 amended: the Coordinator refuses the send — it is never attempted —
exactly when the endpoint neither starts with `https://` nor contains the
substring `localhost`; with passing filters any endpoint satisfying one of
the two tests proceeds.  In particular `http://example.com` is refused
while `https://example.com` and `http://localhost:8080` proceed. -/
theorem c2_amended (sha512hex : String → String) (pDomain pUsername pPassword : Option String)
    (apiUrl deviceId nowIso : String) (filters : List String) :
    (coordRefusesEndpoint apiUrl = true →
      handleLoginDetected sha512hex pDomain pUsername pPassword apiUrl deviceId nowIso
        filters = none) ∧
    (coordRefusesEndpoint apiUrl = false →
      (handleLoginDetected sha512hex pDomain pUsername pPassword apiUrl deviceId nowIso
        []).isSome = true) := by
  constructor
  · intro h
    unfold handleLoginDetected
    split
    · simp
    · next hn => exact absurd h hn
  · intro h
    unfold handleLoginDetected
    simp [h]

/-- C2 amended witness: the claim's three concrete endpoints. -/
theorem c2_amended_witness :
    handleLoginDetected (fun s => s) (some "example.com") (some "alice") (some "hunter2")
        "http://example.com" "dev1" "t0" ["corp.com"] = none ∧
    (handleLoginDetected (fun s => s) (some "example.com") (some "alice") (some "hunter2")
        "https://example.com" "dev1" "t0" []).isSome = true ∧
    (handleLoginDetected (fun s => s) (some "example.com") (some "alice") (some "hunter2")
        "http://localhost:8080" "dev1" "t0" []).isSome = true :=
  ⟨(c2_amended (fun s => s) (some "example.com") (some "alice") (some "hunter2")
      "http://example.com" "dev1" "t0" ["corp.com"]).1 (by decide),
    (c2_amended (fun s => s) (some "example.com") (some "alice") (some "hunter2")
      "https://example.com" "dev1" "t0" []).2 (by decide),
    (c2_amended (fun s => s) (some "example.com") (some "alice") (some "hunter2")
      "http://localhost:8080" "dev1" "t0" []).2 (by decide)⟩

/-- C5: the claim (and the backend's own `loginData` contract) expects the
POST body to carry exactly domain, username, hash, device_id,
captured_time, hasMFA, mfaType.  Evaluating the Coordinator at a captured
login shows the body it builds has only the first five keys: the hasMFA
and mfaType values supplied by the page agent are dropped, so the backend
always decodes them as zero values. -/
theorem c5_post_body_drops_mfa_fields :
    handleLoginDetected (fun s => s ++ "#sha512") (some "example.com") (some "alice")
        (some "hunter2") "https://collector.example" "dev1" "t0" [] =
      some [("domain", "example.com"), ("username", "alice"), ("hash", "hunter2#sha512"),
        ("device_id", "dev1"), ("captured_time", "t0")] ∧
    [("domain", "example.com"), ("username", "alice"), ("hash", "hunter2#sha512"),
        ("device_id", "dev1"), ("captured_time", "t0")].map Prod.fst =
      ["domain", "username", "hash", "device_id", "captured_time"] ∧
    (["domain", "username", "hash", "device_id", "captured_time"].contains "hasMFA" = false) ∧
    (["domain", "username", "hash", "device_id", "captured_time"].contains "mfaType" = false) ∧
    ["domain", "username", "hash", "device_id", "captured_time"] ≠ backendLoginDataKeys ∧
    (backendLoginDataKeys.contains "hasMFA" = true ∧
      backendLoginDataKeys.contains "mfaType" = true) := by
  decide

/-- C9: for a hash with a breach-cache entry stored at time T, a lookup 30
minutes later returns the cached breach count, leaves the cache untouched
and makes zero network calls; a lookup 90 minutes later is past the 1-hour
TTL, so the cached value is not used and a fresh range query is performed
(one network call).  The well-formedness hypothesis `h.length = 40` holds
for every entry the service can create, since the client rejects other
lengths before any result reaches the cache. -/
theorem c9_cache_ttl (network : String → Except String String)
    (cache : String → Option CacheEntry) (T : Nat) (h : String) (c : Int)
    (hc : cache h = some ⟨c, T⟩) (hlen : h.length = 40) :
    serviceCheckPasswordHash network cache (T + 1800000) h = (.ok c, cache, 0) ∧
    (serviceCheckPasswordHash network cache (T + 5400000) h).2.2 = 1 := by
  constructor
  · have h30 : ¬((3600000 : Nat) < 1800000) := by norm_num
    simp [serviceCheckPasswordHash, cacheGet, hc, cacheTTL, h30]
  · have h90 : (3600000 : Nat) < 5400000 := by norm_num
    have hne : ¬(h.length ≠ 40) := by omega
    rcases hn : network (String.mk ((upperStr h).data.take 5)) with e | b
    · simp [serviceCheckPasswordHash, cacheGet, hc, cacheTTL, h90, clientCheckPasswordHash,
        hne, hn]
    · rcases hs : scanRangeLines ((upperStr h).data.drop 5) (splitCh '\n' b.data) with e2 | cnt <;>
        simp [serviceCheckPasswordHash, cacheGet, hc, cacheTTL, h90, clientCheckPasswordHash,
          hne, hn, hs]

/-- C9 witness: a concrete 40-character hash cached at time 0 with count 3. -/
theorem c9_cache_ttl_witness :
    serviceCheckPasswordHash (fun _ => .ok "")
        (fun k => if k == "AAAAAAAAAAAAAAAAAAAAAAAAAAAAAAAAAAAAAAAA" then some ⟨3, 0⟩ else none)
        1800000 "AAAAAAAAAAAAAAAAAAAAAAAAAAAAAAAAAAAAAAAA" =
      (.ok 3,
        (fun k => if k == "AAAAAAAAAAAAAAAAAAAAAAAAAAAAAAAAAAAAAAAA" then some ⟨3, 0⟩ else none),
        0) ∧
    (serviceCheckPasswordHash (fun _ => .ok "")
        (fun k => if k == "AAAAAAAAAAAAAAAAAAAAAAAAAAAAAAAAAAAAAAAA" then some ⟨3, 0⟩ else none)
        5400000 "AAAAAAAAAAAAAAAAAAAAAAAAAAAAAAAAAAAAAAAA").2.2 = 1 :=
  c9_cache_ttl (fun _ => .ok "")
    (fun k => if k == "AAAAAAAAAAAAAAAAAAAAAAAAAAAAAAAAAAAAAAAA" then some ⟨3, 0⟩ else none)
    0 "AAAAAAAAAAAAAAAAAAAAAAAAAAAAAAAAAAAAAAAA" 3 (by decide) (by decide)

/-- C10: any input whose length is not exactly 40 characters is rejected by
the breach-check client before any network request, the service layer's
cache is left unchanged by the call, and the 128-character SHA-512 hex
digest the Coordinator reports (two hex characters per digest byte, 64
bytes) always fails this length check. -/
theorem c10_sha512_hex_rejected (network : String → Except String String)
    (cache : String → Option CacheEntry) (now : Nat) (h : String) (bs : List Nat)
    (hlen : h.length ≠ 40) (hbs : bs.length = 64) (hb : ∀ b ∈ bs, b < 256) :
    clientCheckPasswordHash network h =
      (.error "invalid hash length: expected 40 characters", 0) ∧
    (serviceCheckPasswordHash network cache now h).2.1 = cache ∧
    (hexOfBytes bs).length = 128 ∧ (hexOfBytes bs).length ≠ 40 := by
  have hcl : clientCheckPasswordHash network h =
      (.error "invalid hash length: expected 40 characters", 0) := by
    simp [clientCheckPasswordHash, hlen]
  have hhex : (hexOfBytes bs).length = 128 := by
    rw [hexOfBytes_length bs hb, hbs]
  refine ⟨hcl, ?_, hhex, by omega⟩
  rcases hcg : cacheGet cache now h with ⟨cc, fl⟩
  cases fl
  · simp [serviceCheckPasswordHash, hcg, hcl]
  · simp [serviceCheckPasswordHash, hcg]

/-- C10 witness: the short string `abc` and the all-zero 64-byte digest. -/
theorem c10_sha512_hex_rejected_witness :
    clientCheckPasswordHash (fun _ => .ok "") "abc" =
      (.error "invalid hash length: expected 40 characters", 0) ∧
    (serviceCheckPasswordHash (fun _ => .ok "") (fun _ => none) 0 "abc").2.1 =
      (fun _ => none) ∧
    (hexOfBytes (List.replicate 64 0)).length = 128 ∧
    (hexOfBytes (List.replicate 64 0)).length ≠ 40 :=
  c10_sha512_hex_rejected (fun _ => .ok "") (fun _ => none) 0 "abc" (List.replicate 64 0)
    (by decide) (by decide) (by decide)

/-! ## Correlation-machine lemmas for C3 -/

/-- An emission report counts at most once for any pair. -/
theorem pairHit_le_one (d u : String) (o : Option (String × String)) :
    pairHit d u o ≤ 1 := by
  cases o with
  | none => exact Nat.zero_le 1
  | some p =>
    simp only [pairHit]
    split <;> omega

/-- Splitting a run over an append. -/
theorem cRun_append (l1 l2 : List CEvent) : ∀ s : CState,
    cRun s (l1 ++ l2) = cRun (cRun s l1) l2 := by
  induction l1 with
  | nil => intro s; rfl
  | cons e rest ih => intro s; simp [cRun, ih]

/-- Splitting an emission count over an append. -/
theorem cCount_append (d u : String) (l1 l2 : List CEvent) : ∀ s : CState,
    cCount d u s (l1 ++ l2) = cCount d u s l1 + cCount d u (cRun s l1) l2 := by
  induction l1 with
  | nil => intro s; simp [cCount, cRun]
  | cons e rest ih => intro s; simp [cCount, cRun, ih]; omega

/-- A trigger-free trace with no pending attempt emits nothing, creates no
pending attempt, and never touches the shared DebounceRecord. -/
theorem cNoTrigNoPending : ∀ (l : List CEvent) (s : CState) (d u : String),
    trigFree l = true → s.pending = none →
    cCount d u s l = 0 ∧ (cRun s l).pending = none ∧ (cRun s l).lastSent = s.lastSent := by
  intro l
  induction l with
  | nil => intro s d u _ hp; exact ⟨rfl, hp, rfl⟩
  | cons e rest ih =>
    intro s d u htf hp
    simp only [trigFree, List.all_cons, Bool.and_eq_true] at htf
    obtain ⟨hnt, hrest⟩ := htf
    have hrest' : trigFree rest = true := hrest
    cases e with
    | trigger td tu tpw tt tem => simp [CEvent.isTrig] at hnt
    | scanMFA em =>
      have hstep : cStep s (.scanMFA em) = ({ s with hasMFA := true }, none) := by
        simp [cStep, hp]
      obtain ⟨hc1, hp1, hl1⟩ := ih { s with hasMFA := true } d u hrest' hp
      exact ⟨by simp [cCount, hstep, hc1, pairHit], by simp [cRun, hstep, hp1],
        by simp [cRun, hstep, hl1]⟩
    | scanNoMFA =>
      have hstep : cStep s .scanNoMFA = ({ s with hasMFA := false }, none) := by
        simp [cStep]
      obtain ⟨hc1, hp1, hl1⟩ := ih { s with hasMFA := false } d u hrest' hp
      exact ⟨by simp [cCount, hstep, hc1, pairHit], by simp [cRun, hstep, hp1],
        by simp [cRun, hstep, hl1]⟩
    | timerFire em =>
      have hstep : cStep s (.timerFire em) = (s, none) := by
        simp [cStep, hp]
      obtain ⟨hc1, hp1, hl1⟩ := ih s d u hrest' hp
      exact ⟨by simp [cCount, hstep, hc1, pairHit], by simp [cRun, hstep, hp1],
        by simp [cRun, hstep, hl1]⟩

/-- A trigger-free trace starting with a pending attempt `p` emits at most
once for any pair; either the attempt is still pending afterwards — with
nothing emitted and the DebounceRecord untouched — or the attempt was
consumed (fast path or timer) and the DebounceRecord carries the pair and
timestamp of `p`. -/
theorem cNoTrigPending : ∀ (l : List CEvent) (s : CState) (p : PendingAttempt) (d u : String),
    trigFree l = true → s.pending = some p →
    cCount d u s l ≤ 1 ∧
      (((cRun s l).pending = some p ∧ (cRun s l).lastSent = s.lastSent ∧
          cCount d u s l = 0) ∨
        ((cRun s l).pending = none ∧
          (cRun s l).lastSent = some ⟨p.domain, p.username, p.timestamp⟩)) := by
  intro l
  induction l with
  | nil =>
    intro s p d u _ hp
    exact ⟨Nat.zero_le 1, Or.inl ⟨hp, rfl, rfl⟩⟩
  | cons e rest ih =>
    intro s p d u htf hp
    simp only [trigFree, List.all_cons, Bool.and_eq_true] at htf
    obtain ⟨hnt, hrest⟩ := htf
    have hrest' : trigFree rest = true := hrest
    cases e with
    | trigger td tu tpw tt tem => simp [CEvent.isTrig] at hnt
    | scanMFA em =>
      have hstep : cStep s (.scanMFA em) =
          (⟨some ⟨p.domain, p.username, p.timestamp⟩, none, true⟩,
            if em then some (p.domain, p.username) else none) := by
        simp [cStep, hp]
      obtain ⟨hc1, hp1, hl1⟩ :=
        cNoTrigNoPending rest ⟨some ⟨p.domain, p.username, p.timestamp⟩, none, true⟩
          d u hrest' rfl
      refine ⟨?_, Or.inr ⟨?_, ?_⟩⟩
      · have hh := pairHit_le_one d u (if em then some (p.domain, p.username) else none)
        simp only [cCount, hstep]
        omega
      · simp [cRun, hstep, hp1]
      · simp [cRun, hstep, hl1]
    | scanNoMFA =>
      have hstep : cStep s .scanNoMFA = ({ s with hasMFA := false }, none) := by
        simp [cStep]
      obtain ⟨hc1, hdisj⟩ := ih { s with hasMFA := false } p d u hrest' hp
      refine ⟨by simp [cCount, hstep, hc1, pairHit], ?_⟩
      rcases hdisj with ⟨h1, h2, h3⟩ | ⟨h1, h2⟩
      · exact Or.inl ⟨by simp [cRun, hstep, h1], by simp [cRun, hstep]; exact h2,
          by simp [cCount, hstep, h3, pairHit]⟩
      · exact Or.inr ⟨by simp [cRun, hstep, h1], by simp [cRun, hstep, h2]⟩
    | timerFire em =>
      have hstep : cStep s (.timerFire em) =
          ({ s with lastSent := some ⟨p.domain, p.username, p.timestamp⟩, pending := none },
            if em then some (p.domain, p.username) else none) := by
        simp [cStep, hp]
      obtain ⟨hc1, hp1, hl1⟩ :=
        cNoTrigNoPending rest
          { s with lastSent := some ⟨p.domain, p.username, p.timestamp⟩, pending := none }
          d u hrest' rfl
      refine ⟨?_, Or.inr ⟨?_, ?_⟩⟩
      · have hh := pairHit_le_one d u (if em then some (p.domain, p.username) else none)
        simp only [cCount, hstep]
        omega
      · simp [cRun, hstep, hp1]
      · simp [cRun, hstep, hl1]

/-- The machine invariant: when `hasMFADetected` is set there is no pending
attempt (a scan that detects a new MFA field consumes any pending attempt
through the fast path, and a trigger that sees the flag set never creates
one). -/
def cInv (s : CState) : Prop :=
  s.hasMFA = true → s.pending = none

/-- One step preserves the invariant. -/
theorem cInv_step (s : CState) (e : CEvent) (hv : cInv s) : cInv (cStep s e).1 := by
  cases e with
  | trigger d u pw t em =>
    cases hls : s.lastSent with
    | some r =>
      by_cases hd :
        (r.domain == d && r.username == u && decide (t - r.timestamp < DEBOUNCE_TIME)) = true
      · simpa [cStep, hls, hd] using hv
      · cases hm : s.hasMFA with
        | true =>
          intro _
          simp [cStep, hls, hd, hm]
          exact hv hm
        | false =>
          intro hcon
          simp [cStep, hls, hd, hm] at hcon
    | none =>
      cases hm : s.hasMFA with
      | true =>
        intro _
        simp [cStep, hls, hm]
        exact hv hm
      | false =>
        intro hcon
        simp [cStep, hls, hm] at hcon
  | scanMFA em =>
    cases hp : s.pending with
    | some p => intro _; simp [cStep, hp]
    | none => intro _; simp [cStep, hp, hv]
  | scanNoMFA => intro hcon; simp [cStep] at hcon
  | timerFire em =>
    cases hp : s.pending with
    | some p => intro _; simp [cStep, hp]
    | none => simpa [cStep, hp] using hv

/-- A whole run preserves the invariant. -/
theorem cInv_run (l : List CEvent) : ∀ s : CState, cInv s → cInv (cRun s l) := by
  induction l with
  | nil => intro s hv; exact hv
  | cons e rest ih => intro s hv; exact ih _ (cInv_step s e hv)

/-- C3 counterexample: the per-pair claim fails in the code because
`lastSentLogin` is one shared record, not a per-pair guard.  With an MFA
field detected, a trigger for (d, alice) at 0 ms emits and writes the
record; a trigger for (d, bob) at 100 ms passes the username comparison,
emits, and overwrites the shared record; a second (d, alice) trigger at
200 ms — 200 ms after the first, well inside the 1000 ms window — is then
compared against bob's record, passes, and emits again: two VerifiedEvents
for (d, alice) from two triggers within the debounce window. -/
theorem c3_counterexample :
    (200 : Nat) - 0 < 1000 ∧
    cCount "d" "alice" initCState
      [CEvent.scanMFA true, CEvent.trigger "d" "alice" "pw1" 0 true,
        CEvent.trigger "d" "bob" "pw2" 100 true,
        CEvent.trigger "d" "alice" "pw1" 200 true] = 2 := by
  decide

/-- C3 amended: two submit/click triggers for the same (origin, username)
pair within the 1000 ms debounce window yield at most one VerifiedEvent
for that pair provided they are the only triggers in the trace — in
particular, no trigger for a different (origin, username) is interleaved,
since the shared DebounceRecord would be overwritten and the window
re-opened.  Scans, fast-path MFA detections and MFA-wait timer expiries
may still interleave arbitrarily, across the immediate MFA-confirmed path,
the pending MFA-wait path and the fast-path cancellation. -/
theorem c3_debounce_amended (A B C : List CEvent) (d u pw1 pw2 : String)
    (t1 t2 : Nat) (e1 e2 : Bool)
    (hA : trigFree A = true) (hB : trigFree B = true) (hC : trigFree C = true)
    (hwin : t2 - t1 < 1000) :
    cCount d u initCState
      (A ++ (CEvent.trigger d u pw1 t1 e1 ::
        (B ++ (CEvent.trigger d u pw2 t2 e2 :: C)))) ≤ 1 := by
  obtain ⟨hcA, hpA, hlA⟩ := cNoTrigNoPending A initCState d u hA rfl
  have hl1 : (cRun initCState A).lastSent = none := hlA
  rw [cCount_append, hcA, Nat.zero_add]
  generalize hs1 : cRun initCState A = s1 at hpA hl1 ⊢
  cases hm1 : s1.hasMFA with
  | true =>
    have hstep1 : cStep s1 (.trigger d u pw1 t1 e1) =
        ({ s1 with lastSent := some ⟨d, u, t1⟩ }, if e1 then some (d, u) else none) := by
      simp [cStep, hl1, hm1]
    simp only [cCount]
    rw [hstep1, cCount_append]
    obtain ⟨hcB, hpB, hlB⟩ :=
      cNoTrigNoPending B { s1 with lastSent := some ⟨d, u, t1⟩ } d u hB hpA
    have hl3 : (cRun { s1 with lastSent := some ⟨d, u, t1⟩ } B).lastSent =
        some ⟨d, u, t1⟩ := hlB
    have hstep2 : cStep (cRun { s1 with lastSent := some ⟨d, u, t1⟩ } B)
        (.trigger d u pw2 t2 e2) =
        (cRun { s1 with lastSent := some ⟨d, u, t1⟩ } B, none) := by
      simp [cStep, hl3, DEBOUNCE_TIME, hwin]
    simp only [cCount]
    rw [hstep2, hcB]
    obtain ⟨hcC, -, -⟩ :=
      cNoTrigNoPending C (cRun { s1 with lastSent := some ⟨d, u, t1⟩ } B) d u hC hpB
    rw [hcC]
    have hh := pairHit_le_one d u (if e1 then some (d, u) else none)
    have h0 : pairHit d u none = 0 := rfl
    dsimp only
    omega
  | false =>
    have hstep1 : cStep s1 (.trigger d u pw1 t1 e1) =
        ({ s1 with pending := some ⟨d, u, pw1, t1⟩ }, none) := by
      simp [cStep, hl1, hm1]
    simp only [cCount]
    rw [hstep1, cCount_append]
    have hinv2 : cInv { s1 with pending := some ⟨d, u, pw1, t1⟩ } := by
      intro hmm
      exact absurd hmm (by simp [hm1])
    obtain ⟨hcB, hdisj⟩ :=
      cNoTrigPending B { s1 with pending := some ⟨d, u, pw1, t1⟩ } ⟨d, u, pw1, t1⟩
        d u hB rfl
    rcases hdisj with ⟨hp3, hl3, hc0⟩ | ⟨hp3, hl3⟩
    · have hm3 : (cRun { s1 with pending := some ⟨d, u, pw1, t1⟩ } B).hasMFA = false := by
        cases hmm : (cRun { s1 with pending := some ⟨d, u, pw1, t1⟩ } B).hasMFA
        · rfl
        · have hpn := cInv_run B { s1 with pending := some ⟨d, u, pw1, t1⟩ } hinv2 hmm
          rw [hp3] at hpn
          exact absurd hpn (by simp)
      have hl3' : (cRun { s1 with pending := some ⟨d, u, pw1, t1⟩ } B).lastSent = none := by
        rw [hl3]
        exact hl1
      have hstep2 : cStep (cRun { s1 with pending := some ⟨d, u, pw1, t1⟩ } B)
          (.trigger d u pw2 t2 e2) =
          ({ cRun { s1 with pending := some ⟨d, u, pw1, t1⟩ } B with
              pending := some ⟨d, u, pw2, t2⟩ }, none) := by
        simp [cStep, hl3', hm3]
      simp only [cCount]
      rw [hstep2, hc0]
      obtain ⟨hcC, -⟩ :=
        cNoTrigPending C
          { cRun { s1 with pending := some ⟨d, u, pw1, t1⟩ } B with
              pending := some ⟨d, u, pw2, t2⟩ }
          ⟨d, u, pw2, t2⟩ d u hC rfl
      dsimp only at hcC ⊢
      simp only [pairHit]
      omega
    · have hstep2 : cStep (cRun { s1 with pending := some ⟨d, u, pw1, t1⟩ } B)
          (.trigger d u pw2 t2 e2) =
          (cRun { s1 with pending := some ⟨d, u, pw1, t1⟩ } B, none) := by
        simp [cStep, hl3, DEBOUNCE_TIME, hwin]
      simp only [cCount]
      rw [hstep2]
      obtain ⟨hcC, -, -⟩ :=
        cNoTrigNoPending C (cRun { s1 with pending := some ⟨d, u, pw1, t1⟩ } B) d u hC hp3
      dsimp only at hcC ⊢
      simp only [pairHit]
      omega

/-- C3 amended witness: a trigger for (d, alice) at 0 ms whose MFA-wait
timer fires and emits, followed by a second (d, alice) trigger at 500 ms,
which the DebounceRecord written by the timer silently discards: one
VerifiedEvent in total. -/
theorem c3_debounce_amended_witness :
    trigFree [CEvent.timerFire true] = true ∧ (500 : Nat) - 0 < 1000 ∧
    cCount "d" "alice" initCState
      ([] ++ (CEvent.trigger "d" "alice" "pw" 0 true ::
        ([CEvent.timerFire true] ++ (CEvent.trigger "d" "alice" "pw" 500 true :: [])))) ≤ 1 :=
  ⟨by decide, by decide,
    c3_debounce_amended [] [CEvent.timerFire true] [] "d" "alice" "pw" "pw" 0 500 true true
      (by decide) (by decide) (by decide) (by decide)⟩

end Shade
